import Mathlib

/-!
Verification of the Drisession automation framework against its
natural-language specification.

The development shallowly embeds the parts of the code the claims are
about:

* `src/core/driver_manager.py` — the driver registry (`DriverManager`):
  a name-to-instance dictionary guarded by one non-reentrant
  `threading.Lock`.  The registry is modelled as an association list
  `RegMap`; each operation takes a flag saying whether the calling
  thread already holds the lock, for Python's `threading.Lock` blocks
  even its owner on re-acquisition, so an operation that re-acquires a
  held lock deadlocks (`OpResult.deadlock`).
* `src/core/wait_handler.py` — `_manual_wait_for_condition`: a polling
  loop with a fixed 0.5 s sleep.  Time is modelled in half-second ticks:
  the k-th evaluation of the condition happens at elapsed time k/2, so
  the deadline check `time.time() - start_time < timeout` admits exactly
  the iterations k with k < 2*timeout.  A condition evaluation either
  returns a boolean or raises (`CondResult`).
* `src/utils/report_generator.py` — `add_test_result` /
  `_calculate_statistics`.
* `src/utils/data_handler.py` — `filter_data`.
* `src/core/element_handler.py` — `get_text`.

Machine floats of the source (`pass_rate`, elapsed seconds) are modelled
as rationals; Python's `round(x, 2)` becomes rounding to an integer
number of hundredths.
-/

set_option autoImplicit false

/-- A live driver handle, as far as the registry observes it:
its identity, whether it has `quit` / `close` attributes, and whether
invoking that method raises. -/
structure Driver where
  id : Nat
  hasQuit : Bool
  quitRaises : Bool
  hasClose : Bool
  closeRaises : Bool
deriving DecidableEq, Repr

/-- The registry's `self._drivers` dictionary: names to driver handles. -/
abbrev RegMap := List (String × Driver)

/-- Dictionary lookup: `self._drivers.get(name)` / `name in self._drivers`. -/
def lookupDriver (m : RegMap) (name : String) : Option Driver :=
  match m with
  | [] => none
  | e :: rest => if e.1 = name then some e.2 else lookupDriver rest name

/-- Dictionary deletion: `del self._drivers[name]`. -/
def removeDriver (m : RegMap) (name : String) : RegMap :=
  match m with
  | [] => []
  | e :: rest => if e.1 = name then removeDriver rest name else e :: removeDriver rest name

/-- Dictionary assignment: `self._drivers[name] = page` (replaces in place
when the key exists, appends otherwise). -/
def insertDriver (m : RegMap) (name : String) (d : Driver) : RegMap :=
  match m with
  | [] => [(name, d)]
  | e :: rest => if e.1 = name then (name, d) :: rest else e :: insertDriver rest name d

/-- Outcome of one registry operation: normal return together with the
resulting registry, an exception propagating out of the call (the
registry as left behind), or the calling thread blocked forever on the
registry lock. -/
inductive OpResult (α : Type) where
  | ok : α → RegMap → OpResult α
  | raised : RegMap → OpResult α
  | deadlock : OpResult α
deriving DecidableEq, Repr

/-- The close step of `close_driver`: `driver.quit()` when the driver has
`quit`, else `driver.close()` when it has `close`; whether that call
raises. -/
def driverCloseRaises (d : Driver) : Bool :=
  if d.hasQuit then d.quitRaises
  else if d.hasClose then d.closeRaises
  else false

/-- Body of `DriverManager.close_driver` once the lock is acquired
(driver_manager.py lines 180-199): absent name returns False; a raising
quit/close is caught, logged and returns False with the entry kept; on
success the entry is deleted and True returned. -/
def closeDriverLocked (m : RegMap) (name : String) : Bool × RegMap :=
  match lookupDriver m name with
  | none => (false, m)
  | some d =>
    if driverCloseRaises d then (false, m)
    else (true, removeDriver m name)

/-- Embeds `DriverManager.close_driver` (driver_manager.py lines 170-199).
`lockHeld` says whether the calling thread already holds `self._lock`;
`with self._lock` on a held non-reentrant lock blocks forever. -/
def close_driver (lockHeld : Bool) (m : RegMap) (name : String) : OpResult Bool :=
  if lockHeld then OpResult.deadlock
  else
    let r := closeDriverLocked m name
    OpResult.ok r.1 r.2

/-- Outcome of the underlying library's page constructor inside a
`create_*` call: whether it raises, and the page it yields otherwise. -/
structure CreateArgs where
  createRaises : Bool
  newDriver : Driver
deriving DecidableEq, Repr

/-- The `try` block shared by the three `create_*` methods: construct the
page (exception caught, logged and re-raised), store it under `name`,
return it. -/
def createPageBody (m : RegMap) (name : String) (args : CreateArgs) : OpResult Driver :=
  if args.createRaises then OpResult.raised m
  else OpResult.ok args.newDriver (insertDriver m name args.newDriver)

/-- Embeds `DriverManager.create_chromium_page` (driver_manager.py lines 23-62):
under `with self._lock`, when `name` is already registered it calls
`self.close_driver(name)` — which re-acquires the same non-reentrant
lock — then runs the construction body. -/
def create_chromium_page (lockHeld : Bool) (m : RegMap) (name : String)
    (args : CreateArgs) : OpResult Driver :=
  if lockHeld then OpResult.deadlock
  else if (lookupDriver m name).isSome then
    match close_driver true m name with
    | OpResult.deadlock => OpResult.deadlock
    | OpResult.raised m2 => OpResult.raised m2
    | OpResult.ok _ m2 => createPageBody m2 name args
  else createPageBody m name args

/-- Embeds `DriverManager.create_session_page` (driver_manager.py lines 64-103):
same lock and replacement structure as `create_chromium_page`. -/
def create_session_page (lockHeld : Bool) (m : RegMap) (name : String)
    (args : CreateArgs) : OpResult Driver :=
  if lockHeld then OpResult.deadlock
  else if (lookupDriver m name).isSome then
    match close_driver true m name with
    | OpResult.deadlock => OpResult.deadlock
    | OpResult.raised m2 => OpResult.raised m2
    | OpResult.ok _ m2 => createPageBody m2 name args
  else createPageBody m name args

/-- Embeds `DriverManager.create_web_page` (driver_manager.py lines 105-157):
`mode` selects constructor arguments only; the lock and replacement
structure is that of the other two creators. -/
def create_web_page (lockHeld : Bool) (m : RegMap) (name : String)
    (mode : String) (args : CreateArgs) : OpResult Driver :=
  if lockHeld then OpResult.deadlock
  else if (lookupDriver m name).isSome then
    match close_driver true m name with
    | OpResult.deadlock => OpResult.deadlock
    | OpResult.raised m2 => OpResult.raised m2
    | OpResult.ok _ m2 =>
      if mode = "d" then createPageBody m2 name args else createPageBody m2 name args
  else
    if mode = "d" then createPageBody m name args else createPageBody m name args

/-- The creation step of `get_temp_driver` (driver_manager.py lines
272-280): dispatch on `driver_type`; an unsupported type raises
`ValueError` before any registry access. -/
def tempCreateStep (m : RegMap) (tempName : String) (driverType : String)
    (args : CreateArgs) : OpResult Driver :=
  if driverType = "chromium" then create_chromium_page false m tempName args
  else if driverType = "session" then create_session_page false m tempName args
  else if driverType = "web" then create_web_page false m tempName "d" args
  else OpResult.raised m

/-- Embeds `DriverManager.get_temp_driver` (driver_manager.py lines 253-285):
`try: create; yield finally: self.close_driver(temp_name)`.  `bodyRaises`
says whether the code in the `with` body raises. -/
def get_temp_driver (m : RegMap) (tempName : String) (driverType : String)
    (args : CreateArgs) (bodyRaises : Bool) : OpResult Unit :=
  match tempCreateStep m tempName driverType args with
  | OpResult.deadlock => OpResult.deadlock
  | OpResult.raised m2 =>
    match close_driver false m2 tempName with
    | OpResult.ok _ m3 => OpResult.raised m3
    | OpResult.raised m3 => OpResult.raised m3
    | OpResult.deadlock => OpResult.deadlock
  | OpResult.ok _ m2 =>
    match close_driver false m2 tempName with
    | OpResult.ok _ m3 => if bodyRaises then OpResult.raised m3 else OpResult.ok () m3
    | OpResult.raised m3 => OpResult.raised m3
    | OpResult.deadlock => OpResult.deadlock

/-- The registry an operation leaves behind, when it terminates at all. -/
def resultMap {α : Type} : OpResult α → Option RegMap
  | OpResult.ok _ m => some m
  | OpResult.raised m => some m
  | OpResult.deadlock => none

/-- Sample driver whose `quit` succeeds. -/
def sampleDriver : Driver :=
  { id := 0, hasQuit := true, quitRaises := false, hasClose := true, closeRaises := false }

/-- Sample driver whose `quit` raises. -/
def faultyDriver : Driver :=
  { id := 1, hasQuit := true, quitRaises := true, hasClose := true, closeRaises := false }

/-- Result of one evaluation of the waited-for condition: a boolean, or
an exception (caught by `except Exception: pass` in the loop). -/
inductive CondResult where
  | ret : Bool → CondResult
  | raises
deriving DecidableEq, Repr

/-- The loop of `WaitHandler._manual_wait_for_condition`
(wait_handler.py lines 373-386) with `fuel` iterations left and `k` the
index of the next condition evaluation: an evaluation returning True
exits with True; one returning False or raising is followed by
`time.sleep(0.5)` and the next iteration; an exhausted deadline exits
with False. -/
def manualWaitAux (cond : Nat → CondResult) : Nat → Nat → Bool
  | 0, _ => false
  | fuel + 1, k =>
    match cond k with
    | CondResult.ret true => true
    | _ => manualWaitAux cond fuel (k + 1)

/-- Embeds `WaitHandler._manual_wait_for_condition` (wait_handler.py lines
357-386): with a 0.5 s sleep per iteration, the deadline check
`time.time() - start_time < timeout` admits exactly the iterations
k with k/2 < timeout, i.e. k < 2*timeout. -/
def manual_wait_for_condition (cond : Nat → CondResult) (timeout : Nat) : Bool :=
  manualWaitAux cond (2 * timeout) 0

/-- A condition as the loop observes it once `except Exception: pass` has
run: a raising evaluation is indistinguishable from one returning False. -/
def catchFalse (cond : Nat → CondResult) : Nat → CondResult :=
  fun k =>
    match cond k with
    | CondResult.raises => CondResult.ret false
    | r => r

/-- State of the polling loop between iterations: about to run iteration
k, or finished with a result. -/
inductive LoopState where
  | running : Nat → LoopState
  | done : Bool → LoopState
deriving DecidableEq, Repr

/-- One iteration of the polling loop as a step function on `LoopState`:
a single deadline check, then one condition evaluation. -/
def loopStep (cond : Nat → CondResult) (timeout : Nat) : LoopState → LoopState
  | LoopState.running k =>
    if k < 2 * timeout then
      match cond k with
      | CondResult.ret true => LoopState.done true
      | _ => LoopState.running (k + 1)
    else LoopState.done false
  | LoopState.done b => LoopState.done b

/-- Run `n` iterations of the polling loop from state `s`. -/
def loopRun (cond : Nat → CondResult) (timeout : Nat) (s : LoopState) : Nat → LoopState
  | 0 => s
  | n + 1 => loopRun cond timeout (loopStep cond timeout s) n

/-- Events a registry operation performs on the shared state, in order:
acquiring / releasing `self._lock`, and a mutation of the
`self._drivers` dictionary. -/
inductive Event where
  | acquire
  | release
  | mutate
deriving DecidableEq, Repr

/-- Whether the lock is held just before the i-th event of a trace:
more acquisitions than releases so far. -/
def heldBefore (tr : List Event) (i : Nat) : Bool :=
  (tr.take i).count Event.release < (tr.take i).count Event.acquire

/-- Every dictionary mutation of a trace happens while the lock is held. -/
def mutationsLocked (tr : List Event) : Prop :=
  ∀ i : Fin tr.length, tr.get i = Event.mutate → heldBefore tr i.val = true

/-- Event trace of `create_chromium_page` (driver_manager.py lines
39-62): acquire the lock; with an existing `name` the nested
`close_driver` blocks on re-acquisition and no further event occurs;
otherwise the constructor either raises (lock released on unwind) or the
page is stored and the lock released. -/
def createChromiumTrace (existing createRaises : Bool) : List Event :=
  if existing then [Event.acquire]
  else if createRaises then [Event.acquire, Event.release]
  else [Event.acquire, Event.mutate, Event.release]

/-- Event trace of `create_session_page` (driver_manager.py lines
80-103): same structure as `create_chromium_page`. -/
def createSessionTrace (existing createRaises : Bool) : List Event :=
  if existing then [Event.acquire]
  else if createRaises then [Event.acquire, Event.release]
  else [Event.acquire, Event.mutate, Event.release]

/-- Event trace of `create_web_page` (driver_manager.py lines 123-157):
same structure as `create_chromium_page`, whatever the mode. -/
def createWebTrace (existing createRaises : Bool) : List Event :=
  if existing then [Event.acquire]
  else if createRaises then [Event.acquire, Event.release]
  else [Event.acquire, Event.mutate, Event.release]

/-- Event trace of `close_driver` (driver_manager.py lines 179-199)
entered with the lock free: absent name or a raising quit/close mutates
nothing; a successful close deletes the entry under the lock. -/
def closeDriverTrace (present closeRaises : Bool) : List Event :=
  if present then
    if closeRaises then [Event.acquire, Event.release]
    else [Event.acquire, Event.mutate, Event.release]
  else [Event.acquire, Event.release]

/-- Event trace of `close_all_drivers` (driver_manager.py lines
201-208): acquire the lock; with a non-empty registry the first nested
`close_driver` blocks on re-acquisition and no further event occurs. -/
def closeAllTrace (empty : Bool) : List Event :=
  if empty then [Event.acquire, Event.release] else [Event.acquire]

/-- One accumulated test-result record: the dictionary fields the report
generator reads (`get('status')`, and the timestamp `add_test_result`
stamps on it). -/
structure TestResult where
  name : String
  status : Option String
  timestamp : Option String
deriving DecidableEq, Repr

/-- Embeds `ReportGenerator.add_test_result` (report_generator.py lines 41-49):
stamp the record with the current time and append it, with no
validation of its fields. -/
def add_test_result (results : List TestResult) (r : TestResult) (now : String) :
    List TestResult :=
  results ++ [{ r with timestamp := some now }]

/-- Embeds the per-status counting generators of `_calculate_statistics`:
the number of records whose status equals `s`. -/
def statusCount (results : List TestResult) (s : String) : Nat :=
  results.countP (fun r => decide (r.status = some s))

/-- The statistics dictionary `_calculate_statistics` returns (minus the
wall-clock `duration`, which is not a function of the records). -/
structure Stats where
  total_tests : Nat
  passed_tests : Nat
  failed_tests : Nat
  skipped_tests : Nat
  pass_rate : ℚ
deriving DecidableEq, Repr

/-- Python's `round(x, 2)`: round to a whole number of hundredths. -/
def round2 (q : ℚ) : ℚ := (round (q * 100) : ℤ) / 100

/-- Embeds `ReportGenerator._calculate_statistics` (report_generator.py lines
125-151): totals, per-status counts, and the pass rate
`passed / total * 100` (0 for an empty session) rounded to two decimal
places. -/
def calculate_statistics (results : List TestResult) : Stats :=
  let total := results.length
  let passed := statusCount results "PASS"
  let rate : ℚ := if 0 < total then (passed : ℚ) / (total : ℚ) * 100 else 0
  { total_tests := total
    passed_tests := passed
    failed_tests := statusCount results "FAIL"
    skipped_tests := statusCount results "SKIP"
    pass_rate := round2 rate }

/-- A data record handled by `DataHandler`: a dictionary of fields. -/
abbrev Record := List (String × String)

/-- Dictionary lookup in a record: `key in item` / `item[key]`. -/
def recordLookup (item : Record) (key : String) : Option String :=
  match item with
  | [] => none
  | e :: rest => if e.1 = key then some e.2 else recordLookup rest key

/-- The match test of `DataHandler.filter_data`'s inner loop
(data_handler.py lines 268-272): a record matches unless some filter key
is missing from it or bound to a different value. -/
def matchesFilters (item : Record) (filters : List (String × String)) : Bool :=
  filters.all (fun kv => recordLookup item kv.1 == some kv.2)

/-- Embeds `DataHandler.filter_data` (data_handler.py lines 255-281): keep, in
order, the records matching every filter. -/
def filter_data (data : List Record) (filters : List (String × String)) : List Record :=
  data.filter (fun item => matchesFilters item filters)

/-- An element as `get_text` observes it: its `.text` property and
whether reading it raises.  `find_element` itself catches exceptions and
returns a `NoneElement`, modelled together with "not found" as `none`. -/
structure Element where
  text : String
  textRaises : Bool
deriving DecidableEq, Repr

/-- Embeds `ElementHandler.get_text` (element_handler.py lines 175-199): an
absent element yields `""`; a raising `.text` read is caught, logged and
yields `""`. -/
def get_text (el : Option Element) : String :=
  match el with
  | none => ""
  | some e => if e.textRaises then "" else e.text

/-- Outcome of `self.page.driver.eles(locator)` inside `find_elements`:
the element list it yields, or an exception. -/
inductive EleOutcome where
  | found : List Element → EleOutcome
  | raises
deriving DecidableEq

/-- Embeds `ElementHandler.find_elements` (element_handler.py lines
51-73): return the library's element list; an exception is caught,
logged and yields the empty list. -/
def find_elements (outcome : EleOutcome) : List Element :=
  match outcome with
  | EleOutcome.found l => l
  | EleOutcome.raises => []

/-- Outcome of reading `element.attr(attribute)` inside `get_attribute`:
a value, Python None, or an exception. -/
inductive AttrOutcome where
  | value : String → AttrOutcome
  | noneValue
  | raises
deriving DecidableEq

/-- Embeds `ElementHandler.get_attribute` (element_handler.py lines
201-227): an absent element yields `""`; a raising `.attr` read is
caught, logged and yields `""`; a None value becomes `""` (`value or
""`). -/
def get_attribute (el : Option AttrOutcome) : String :=
  match el with
  | none => ""
  | some (AttrOutcome.value v) => v
  | some AttrOutcome.noneValue => ""
  | some AttrOutcome.raises => ""

/-- Embeds `ElementHandler.click` (element_handler.py lines 107-141): an
absent element yields False; a raising `element.click()` is caught,
logged and yields False; otherwise True.  `clickRaises` is whether the
library call raises. -/
def click (el : Option Element) (clickRaises : Bool) : Bool :=
  match el with
  | none => false
  | some _ => if clickRaises then false else true

/-- Embeds `ElementHandler.input_text` (element_handler.py lines
143-173): an absent element yields False; a raising `element.clear()` /
`element.input(text)` is caught, logged and yields False; otherwise
True.  `inputRaises` is whether either library call raises. -/
def input_text (el : Option Element) (inputRaises : Bool) : Bool :=
  match el with
  | none => false
  | some _ => if inputRaises then false else true

/-- Embeds `WaitHandler.wait_for_new_tab` (wait_handler.py lines
331-355): a driver without a `wait` attribute yields False; a raising
`wait.new_tab` is caught, logged and yields False; otherwise True. -/
def wait_for_new_tab (hasWait : Bool) (waitRaises : Bool) : Bool :=
  if hasWait then (if waitRaises then false else true) else false

/-- Result of a `PageBase` navigation method: it returns `self`, or the
exception it caught, logged and re-raised propagates to the caller. -/
inductive NavResult where
  | page
  | raised
deriving DecidableEq

/-- Embeds `PageBase.open`'s try block (page_base.py lines 78-90):
`driver.get` plus the load wait; an exception is caught, logged and
re-raised. -/
def page_open (navRaises : Bool) : NavResult :=
  if navRaises then NavResult.raised else NavResult.page

/-- Embeds `PageBase.refresh` (page_base.py lines 92-101): same
catch-log-re-raise structure as `open`. -/
def page_refresh (navRaises : Bool) : NavResult :=
  if navRaises then NavResult.raised else NavResult.page

/-- Embeds `PageBase.back` (page_base.py lines 103-115): the library
call runs only when the driver has `back`; an exception is caught,
logged and re-raised. -/
def page_back (hasBack : Bool) (navRaises : Bool) : NavResult :=
  if hasBack && navRaises then NavResult.raised else NavResult.page

/-- Embeds `PageBase.forward` (page_base.py lines 117-129): the library
call runs only when the driver has `forward`; an exception is caught,
logged and re-raised. -/
def page_forward (hasForward : Bool) (navRaises : Bool) : NavResult :=
  if hasForward && navRaises then NavResult.raised else NavResult.page

/-- Embeds `PageBase.switch_to_frame` (page_base.py lines 212-236): the
frame lookup runs only when the driver has `ele`; an exception is
caught, logged and re-raised. -/
def switch_to_frame (hasEle : Bool) (navRaises : Bool) : NavResult :=
  if hasEle && navRaises then NavResult.raised else NavResult.page

/-- Embeds `PageBase.switch_to_default_content` (page_base.py lines
238-247): re-fetch the main driver; an exception is caught, logged and
re-raised. -/
def switch_to_default_content (navRaises : Bool) : NavResult :=
  if navRaises then NavResult.raised else NavResult.page

theorem lookup_removeDriver_self (m : RegMap) (name : String) :
    lookupDriver (removeDriver m name) name = none := by
  induction m with
  | nil => rfl
  | cons e rest ih =>
    by_cases h : e.1 = name
    · simpa [removeDriver, h] using ih
    · simpa [removeDriver, lookupDriver, h] using ih

theorem lookup_insertDriver_self (m : RegMap) (name : String) (d : Driver) :
    lookupDriver (insertDriver m name d) name = some d := by
  induction m with
  | nil => simp [insertDriver, lookupDriver]
  | cons e rest ih =>
    by_cases h : e.1 = name
    · simp [insertDriver, h, lookupDriver]
    · simpa [insertDriver, lookupDriver, h] using ih

theorem close_driver_unlocked (m : RegMap) (name : String) :
    close_driver false m name =
      OpResult.ok (closeDriverLocked m name).1 (closeDriverLocked m name).2 := rfl

/-- C1 (code_bug): calling any of the three creators with a name that is
already registered does not close and replace the prior entry — it
deadlocks, because the nested `close_driver` re-acquires the
non-reentrant registry lock the creator already holds.  Shown at the
concrete registry holding `sampleDriver` under `"default"`. -/
theorem c1_create_under_existing_name_deadlocks :
    create_chromium_page false [("default", sampleDriver)] "default"
      { createRaises := false, newDriver := faultyDriver } = OpResult.deadlock ∧
    create_session_page false [("default", sampleDriver)] "default"
      { createRaises := false, newDriver := faultyDriver } = OpResult.deadlock ∧
    create_web_page false [("default", sampleDriver)] "default" "d"
      { createRaises := false, newDriver := faultyDriver } = OpResult.deadlock := by
  refine ⟨?_, ?_, ?_⟩ <;> rfl

/-- C8: `close_driver` returns False and leaves the registry unchanged on
an absent name; returns False and keeps the entry when the driver's
quit/close raises; and only on a successful close deletes the entry and
returns True. -/
theorem c8_close_driver_spec (m : RegMap) (name : String) :
    (lookupDriver m name = none →
      close_driver false m name = OpResult.ok false m) ∧
    (∀ d, lookupDriver m name = some d → driverCloseRaises d = true →
      close_driver false m name = OpResult.ok false m) ∧
    (∀ d, lookupDriver m name = some d → driverCloseRaises d = false →
      close_driver false m name = OpResult.ok true (removeDriver m name) ∧
      lookupDriver (removeDriver m name) name = none) := by
  refine ⟨fun h => ?_, fun d hd hr => ?_, fun d hd hr => ?_⟩
  · simp [close_driver, closeDriverLocked, h]
  · simp [close_driver, closeDriverLocked, hd, hr]
  · exact ⟨by simp [close_driver, closeDriverLocked, hd, hr],
      lookup_removeDriver_self m name⟩

theorem tempCreateStep_fresh (m : RegMap) (tempName driverType : String)
    (args : CreateArgs) (h : lookupDriver m tempName = none) :
    tempCreateStep m tempName driverType args = createPageBody m tempName args ∨
    tempCreateStep m tempName driverType args = OpResult.raised m := by
  by_cases h1 : driverType = "chromium"
  · exact Or.inl (by simp [tempCreateStep, h1, create_chromium_page, h])
  by_cases h2 : driverType = "session"
  · exact Or.inl (by simp [tempCreateStep, h1, h2, create_session_page, h])
  by_cases h3 : driverType = "web"
  · exact Or.inl (by simp [tempCreateStep, h1, h2, h3, create_web_page, h])
  · exact Or.inr (by simp [tempCreateStep, h1, h2, h3])

/-- C4 counterexample: a temporary chromium driver whose `quit` raises.
Creation succeeds and the body completes normally, yet after the context
manager exits the registry still holds the temporary entry — the
`finally` close fails and does not remove it. -/
theorem c4_quit_failure_keeps_temp_entry :
    get_temp_driver [] "temp_1" "chromium"
      { createRaises := false, newDriver := faultyDriver } false =
      OpResult.ok () [("temp_1", faultyDriver)] ∧
    lookupDriver [("temp_1", faultyDriver)] "temp_1" = some faultyDriver := by
  exact ⟨rfl, rfl⟩

/-- C4 (amended): for every driver type and every exit of
`get_temp_driver` — body completing, body raising, or creation raising —
the registry afterwards contains no entry under the temporary name,
provided the temporary name was free beforehand and the driver's
quit/close does not raise; when quit/close raises the entry remains
(see the counterexample). -/
theorem c4_temp_driver_removed_when_close_succeeds (m : RegMap)
    (tempName driverType : String) (args : CreateArgs) (bodyRaises : Bool)
    (hfresh : lookupDriver m tempName = none)
    (hquit : driverCloseRaises args.newDriver = false) :
    ∃ final, resultMap (get_temp_driver m tempName driverType args bodyRaises) = some final ∧
      lookupDriver final tempName = none := by
  rcases tempCreateStep_fresh m tempName driverType args hfresh with h | h
  · cases hc : args.createRaises with
    | true =>
      refine ⟨m, ?_, hfresh⟩
      unfold get_temp_driver
      rw [h]
      simp [createPageBody, hc, close_driver, closeDriverLocked, hfresh, resultMap]
    | false =>
      refine ⟨removeDriver (insertDriver m tempName args.newDriver) tempName, ?_,
        lookup_removeDriver_self _ _⟩
      unfold get_temp_driver
      rw [h]
      cases bodyRaises <;>
        simp [createPageBody, hc, close_driver, closeDriverLocked,
          lookup_insertDriver_self, hquit, resultMap]
  · refine ⟨m, ?_, hfresh⟩
    unfold get_temp_driver
    rw [h]
    simp [close_driver, closeDriverLocked, hfresh, resultMap]

/-- C4 witness: a fresh temporary session driver with a well-behaved
`quit`; after exit the registry has no entry under the temporary name. -/
theorem c4_temp_driver_removed_witness :
    ∃ final, resultMap (get_temp_driver [] "temp_1" "session"
      { createRaises := false, newDriver := sampleDriver } true) = some final ∧
      lookupDriver final "temp_1" = none :=
  c4_temp_driver_removed_when_close_succeeds [] "temp_1" "session"
    { createRaises := false, newDriver := sampleDriver } true rfl rfl

/-- C2 counterexample: an exception raised by the underlying library's
page constructor inside `create_chromium_page` is not converted to a
failure sentinel — the method catches it, logs it and re-raises, so the
exception propagates to the caller. -/
theorem c2_create_reraises :
    create_chromium_page false [] "default"
      { createRaises := true, newDriver := sampleDriver } = OpResult.raised [] := rfl

/-- C2 (amended): the element and wait leaf operations catch exceptions
from the underlying library and return a failure sentinel —
`find_elements` the empty list; `get_text` and `get_attribute` the empty
string; `click`, `input_text` and `wait_for_new_tab` False — but the
pattern is not universal: the three driver-creation operations and the
`PageBase` navigation operations (`open`, `refresh`, `back`, `forward`,
`switch_to_frame`, `switch_to_default_content`) catch, log and
re-raise, propagating the exception to the caller. -/
theorem c2_sentinels_not_universal :
    find_elements EleOutcome.raises = [] ∧
    get_text none = "" ∧
    (∀ e : Element, e.textRaises = true → get_text (some e) = "") ∧
    get_attribute none = "" ∧
    get_attribute (some AttrOutcome.raises) = "" ∧
    (∀ e : Element, click (some e) true = false) ∧
    click none false = false ∧
    (∀ e : Element, input_text (some e) true = false) ∧
    input_text none false = false ∧
    wait_for_new_tab true true = false ∧
    (∀ (m : RegMap) (name : String) (args : CreateArgs),
      lookupDriver m name = none → args.createRaises = true →
      create_chromium_page false m name args = OpResult.raised m ∧
      create_session_page false m name args = OpResult.raised m ∧
      create_web_page false m name "d" args = OpResult.raised m) ∧
    page_open true = NavResult.raised ∧
    page_refresh true = NavResult.raised ∧
    page_back true true = NavResult.raised ∧
    page_forward true true = NavResult.raised ∧
    switch_to_frame true true = NavResult.raised ∧
    switch_to_default_content true = NavResult.raised := by
  refine ⟨rfl, rfl, fun e h => by simp [get_text, h], rfl, rfl,
    fun e => rfl, rfl, fun e => rfl, rfl, rfl,
    fun m name args h1 h2 => ?_, rfl, rfl, rfl, rfl, rfl, rfl⟩
  refine ⟨?_, ?_, ?_⟩ <;>
    simp [create_chromium_page, create_session_page, create_web_page,
      h1, createPageBody, h2]

/-- C5: in every control path of the five registry operations —
the three creators, `close_driver`, `close_all_drivers` — every mutation
of the name-to-instance dictionary happens while the registry mutex is
held, so no two such operations can mutate the dictionary concurrently. -/
theorem c5_mutations_hold_lock (existing createRaised present closeRaised empty : Bool) :
    mutationsLocked (createChromiumTrace existing createRaised) ∧
    mutationsLocked (createSessionTrace existing createRaised) ∧
    mutationsLocked (createWebTrace existing createRaised) ∧
    mutationsLocked (closeDriverTrace present closeRaised) ∧
    mutationsLocked (closeAllTrace empty) := by
  unfold mutationsLocked
  cases existing <;> cases createRaised <;> cases present <;> cases closeRaised <;>
    cases empty <;> exact ⟨by decide, by decide, by decide, by decide, by decide⟩

theorem manualWaitAux_cons_of_ne (cond : Nat → CondResult) (fuel k : Nat)
    (h : cond k ≠ CondResult.ret true) :
    manualWaitAux cond (fuel + 1) k = manualWaitAux cond fuel (k + 1) := by
  cases hck : cond k with
  | ret b =>
    cases b with
    | true => exact absurd hck h
    | false => simp [manualWaitAux, hck]
  | raises => simp [manualWaitAux, hck]

theorem manualWaitAux_true_iff (cond : Nat → CondResult) (fuel : Nat) : ∀ k,
    (manualWaitAux cond fuel k = true ↔
      ∃ j, j < fuel ∧ cond (k + j) = CondResult.ret true) := by
  induction fuel with
  | zero => intro k; simp [manualWaitAux]
  | succ fuel ih =>
    intro k
    by_cases hck : cond k = CondResult.ret true
    · constructor
      · intro _; exact ⟨0, Nat.succ_pos fuel, by simpa using hck⟩
      · intro _; simp [manualWaitAux, hck]
    · rw [manualWaitAux_cons_of_ne cond fuel k hck, ih (k + 1)]
      constructor
      · rintro ⟨j, hj, hcj⟩
        refine ⟨j + 1, Nat.succ_lt_succ hj, ?_⟩
        have hkj : k + (j + 1) = k + 1 + j := by omega
        rw [hkj]; exact hcj
      · rintro ⟨j, hj, hcj⟩
        cases j with
        | zero => exact absurd (by simpa using hcj) hck
        | succ j =>
          refine ⟨j, Nat.lt_of_succ_lt_succ hj, ?_⟩
          have hkj : k + 1 + j = k + (j + 1) := by omega
          rw [hkj]; exact hcj

theorem manualWaitAux_catchFalse (cond : Nat → CondResult) (fuel : Nat) : ∀ k,
    manualWaitAux (catchFalse cond) fuel k = manualWaitAux cond fuel k := by
  induction fuel with
  | zero => intro k; rfl
  | succ fuel ih =>
    intro k
    cases hck : cond k with
    | ret b => cases b <;> simp [manualWaitAux, catchFalse, hck, ih]
    | raises => simp [manualWaitAux, catchFalse, hck, ih]

theorem halfTick_lt_timeout (timeout k : Nat) :
    ((k : ℚ) * (1 / 2) < (timeout : ℚ)) ↔ k < 2 * timeout := by
  have h2 : (0 : ℚ) < 2 := by norm_num
  rw [show (k : ℚ) * (1 / 2) = (k : ℚ) / 2 by ring, div_lt_iff₀ h2,
    show (timeout : ℚ) * 2 = ((2 * timeout : Nat) : ℚ) by push_cast; ring,
    Nat.cast_lt]

/-- C3: for a positive timeout, the manual wait loop returns True exactly
when some condition evaluation before the deadline returns true (and
False otherwise); the k-th evaluation happens at elapsed time k·(1/2) s,
admitted exactly when it is below the timeout; and a raising evaluation
is treated identically to one returning false. -/
theorem c3_manual_wait_spec (cond : Nat → CondResult) (timeout : Nat)
    (hpos : 0 < timeout) :
    (manual_wait_for_condition cond timeout = true ↔
      ∃ k, k < 2 * timeout ∧ cond k = CondResult.ret true) ∧
    (∀ k : Nat, ((k : ℚ) * (1 / 2) < (timeout : ℚ) ↔ k < 2 * timeout)) ∧
    manual_wait_for_condition (catchFalse cond) timeout =
      manual_wait_for_condition cond timeout := by
  refine ⟨?_, fun k => halfTick_lt_timeout timeout k,
    manualWaitAux_catchFalse cond (2 * timeout) 0⟩
  unfold manual_wait_for_condition
  rw [manualWaitAux_true_iff cond (2 * timeout) 0]
  simp

/-- Condition used to instantiate the wait-loop theorems: true on its
second evaluation, raising on every other one. -/
def sampleCond : Nat → CondResult :=
  fun k => if k = 1 then CondResult.ret true else CondResult.raises

/-- C3 witness: the specification of the loop at the concrete condition
`sampleCond` and timeout 1. -/
theorem c3_manual_wait_spec_witness :
    (manual_wait_for_condition sampleCond 1 = true ↔
      ∃ k, k < 2 * 1 ∧ sampleCond k = CondResult.ret true) ∧
    (∀ k : Nat, ((k : ℚ) * (1 / 2) < ((1 : Nat) : ℚ) ↔ k < 2 * 1)) ∧
    manual_wait_for_condition (catchFalse sampleCond) 1 =
      manual_wait_for_condition sampleCond 1 :=
  c3_manual_wait_spec sampleCond 1 (by decide)

theorem loopRun_succ (cond : Nat → CondResult) (timeout : Nat) (s : LoopState) (n : Nat) :
    loopRun cond timeout s (n + 1) = loopRun cond timeout (loopStep cond timeout s) n := rfl

theorem loopRun_done (cond : Nat → CondResult) (timeout : Nat) (b : Bool) (n : Nat) :
    loopRun cond timeout (LoopState.done b) n = LoopState.done b := by
  induction n with
  | zero => rfl
  | succ n ih => rw [loopRun_succ]; exact ih

theorem loopRun_add (cond : Nat → CondResult) (timeout a : Nat) : ∀ (b : Nat) (s : LoopState),
    loopRun cond timeout s (a + b) = loopRun cond timeout (loopRun cond timeout s a) b := by
  induction a with
  | zero => intro b s; rw [Nat.zero_add]; rfl
  | succ a ih =>
    intro b s
    have h1 : a + 1 + b = (a + b) + 1 := by omega
    rw [h1, loopRun_succ, loopRun_succ, ih b (loopStep cond timeout s)]

theorem loopRun_reaches (cond : Nat → CondResult) (timeout : Nat) (fuel : Nat) : ∀ k,
    k + fuel = 2 * timeout →
    loopRun cond timeout (LoopState.running k) (fuel + 1) =
      LoopState.done (manualWaitAux cond fuel k) := by
  induction fuel with
  | zero =>
    intro k h
    have hk : ¬ k < 2 * timeout := by omega
    rw [loopRun_succ]
    have hstep : loopStep cond timeout (LoopState.running k) = LoopState.done false := by
      simp [loopStep, hk]
    rw [hstep]
    rfl
  | succ fuel ih =>
    intro k h
    have hk : k < 2 * timeout := by omega
    rw [loopRun_succ]
    cases hck : cond k with
    | ret b =>
      cases b with
      | true =>
        have hstep : loopStep cond timeout (LoopState.running k) = LoopState.done true := by
          simp [loopStep, hk, hck]
        rw [hstep, loopRun_done]
        simp [manualWaitAux, hck]
      | false =>
        have hstep : loopStep cond timeout (LoopState.running k) =
            LoopState.running (k + 1) := by
          simp [loopStep, hk, hck]
        rw [hstep, manualWaitAux_cons_of_ne cond fuel k (by simp [hck])]
        exact ih (k + 1) (by omega)
    | raises =>
      have hstep : loopStep cond timeout (LoopState.running k) =
          LoopState.running (k + 1) := by
        simp [loopStep, hk, hck]
      rw [hstep, manualWaitAux_cons_of_ne cond fuel k (by simp [hck])]
      exact ih (k + 1) (by omega)

/-- C7: for a positive timeout and a condition whose evaluations
terminate, the polling loop itself terminates: one deadline check and
one condition evaluation per iteration, and after at most 2·timeout + 1
iterations the loop is in a final state carrying the wait's boolean
result, where it stays. -/
theorem c7_manual_wait_terminates (cond : Nat → CondResult) (timeout : Nat)
    (hpos : 0 < timeout) :
    ∃ n, n ≤ 2 * timeout + 1 ∧
      loopRun cond timeout (LoopState.running 0) n =
        LoopState.done (manual_wait_for_condition cond timeout) ∧
      ∀ j, n ≤ j →
        loopRun cond timeout (LoopState.running 0) j =
          LoopState.done (manual_wait_for_condition cond timeout) := by
  have hreach := loopRun_reaches cond timeout (2 * timeout) 0 (by omega)
  refine ⟨2 * timeout + 1, Nat.le_refl _, hreach, ?_⟩
  intro j hj
  obtain ⟨d, rfl⟩ : ∃ d, j = (2 * timeout + 1) + d := ⟨j - (2 * timeout + 1), by omega⟩
  rw [loopRun_add, hreach, loopRun_done]
  rfl

/-- C7 witness: the loop at the concrete condition `sampleCond` and
timeout 1 reaches its final state within 3 iterations. -/
theorem c7_manual_wait_terminates_witness :
    ∃ n, n ≤ 2 * 1 + 1 ∧
      loopRun sampleCond 1 (LoopState.running 0) n =
        LoopState.done (manual_wait_for_condition sampleCond 1) ∧
      ∀ j, n ≤ j →
        loopRun sampleCond 1 (LoopState.running 0) j =
          LoopState.done (manual_wait_for_condition sampleCond 1) :=
  c7_manual_wait_terminates sampleCond 1 (by decide)

/-- Whether a record's status is one of the three values the statistics
count. -/
def goodStatus (r : TestResult) : Bool :=
  decide (r.status = some "PASS" ∨ r.status = some "FAIL" ∨ r.status = some "SKIP")

theorem statusCount_cons (r : TestResult) (rest : List TestResult) (s : String) :
    statusCount (r :: rest) s = statusCount rest s + (if r.status = some s then 1 else 0) := by
  simp [statusCount, List.countP_cons]

theorem statusContribution (r : TestResult) :
    (if r.status = some "PASS" then 1 else 0) + (if r.status = some "FAIL" then 1 else 0)
      + (if r.status = some "SKIP" then 1 else 0)
      = if goodStatus r = true then 1 else 0 := by
  rcases hr : r.status with _ | s
  · simp [goodStatus, hr]
  · by_cases h1 : s = "PASS"
    · subst h1; simp [goodStatus, hr]
    · by_cases h2 : s = "FAIL"
      · subst h2; simp [goodStatus, hr]
      · by_cases h3 : s = "SKIP"
        · subst h3; simp [goodStatus, hr]
        · simp [goodStatus, hr, h1, h2, h3]

theorem statusCounts_partition (results : List TestResult) :
    statusCount results "PASS" + statusCount results "FAIL" + statusCount results "SKIP"
      ≤ results.length ∧
    (statusCount results "PASS" + statusCount results "FAIL" + statusCount results "SKIP"
        = results.length ↔ ∀ r ∈ results, goodStatus r = true) := by
  induction results with
  | nil => simp [statusCount]
  | cons r rest ih =>
    obtain ⟨ihle, ihiff⟩ := ih
    have hcontrib := statusContribution r
    have hgle : (if goodStatus r = true then (1 : Nat) else 0) ≤ 1 := by split <;> omega
    rw [statusCount_cons, statusCount_cons, statusCount_cons, List.length_cons]
    constructor
    · omega
    · simp only [List.mem_cons]
      constructor
      · intro h
        have hsplit : statusCount rest "PASS" + statusCount rest "FAIL"
            + statusCount rest "SKIP" = rest.length ∧
            (if goodStatus r = true then (1 : Nat) else 0) = 1 := by omega
        have hgr : goodStatus r = true := by
          by_contra hng
          have h1 := hsplit.2
          rw [if_neg hng] at h1
          omega
        intro x hx
        rcases hx with rfl | hx
        · exact hgr
        · exact (ihiff.mp hsplit.1) x hx
      · intro h
        have hgr : goodStatus r = true := h r (Or.inl rfl)
        have hall := ihiff.mpr (fun x hx => h x (Or.inr hx))
        rw [if_pos hgr] at hcontrib
        omega

/-- Record used in the C6 counterexample: its status is none of PASS,
FAIL, SKIP. -/
def badResult : TestResult := { name := "t1", status := some "ERROR", timestamp := none }

/-- C6 counterexample: `add_test_result` stores a record whose status is
"ERROR" unchanged, so a stored record's status need not be in
{PASS, FAIL, SKIP}, and for that session total_tests is 1 while
passed + failed + skipped is 0. -/
theorem c6_error_status_is_stored :
    add_test_result [] badResult "ts" =
      [{ name := "t1", status := some "ERROR", timestamp := some "ts" }] ∧
    goodStatus { name := "t1", status := some "ERROR", timestamp := some "ts" } = false ∧
    (calculate_statistics (add_test_result [] badResult "ts")).total_tests = 1 ∧
    (calculate_statistics (add_test_result [] badResult "ts")).passed_tests
      + (calculate_statistics (add_test_result [] badResult "ts")).failed_tests
      + (calculate_statistics (add_test_result [] badResult "ts")).skipped_tests = 0 := by
  refine ⟨rfl, by decide, rfl, by decide⟩

/-- C6 (amended): `add_test_result` appends the record with its status
field unvalidated, so a stored status may lie outside {PASS, FAIL,
SKIP}; the statistics always satisfy passed + failed + skipped ≤ total,
with equality exactly when every stored record's status is one of the
three values. -/
theorem c6_totals_account_for_valid_statuses (results : List TestResult) :
    (∀ (r : TestResult) (now : String),
      (add_test_result results r now).map TestResult.status =
        results.map TestResult.status ++ [r.status]) ∧
    (calculate_statistics results).passed_tests + (calculate_statistics results).failed_tests
      + (calculate_statistics results).skipped_tests
      ≤ (calculate_statistics results).total_tests ∧
    ((calculate_statistics results).passed_tests + (calculate_statistics results).failed_tests
        + (calculate_statistics results).skipped_tests
        = (calculate_statistics results).total_tests ↔
      ∀ r ∈ results, goodStatus r = true) := by
  refine ⟨fun r now => by simp [add_test_result], ?_, ?_⟩
  · exact (statusCounts_partition results).1
  · exact (statusCounts_partition results).2

/-- C9: `_calculate_statistics` returns the list's length as total_tests,
the exact per-status record counts, a pass rate of 0 for an empty
session and otherwise passed/total·100 rounded to two decimals, and the
three counts never sum beyond the total. -/
theorem c9_statistics_spec (results : List TestResult) :
    (calculate_statistics results).total_tests = results.length ∧
    (calculate_statistics results).passed_tests =
      (results.filter (fun r => decide (r.status = some "PASS"))).length ∧
    (calculate_statistics results).failed_tests =
      (results.filter (fun r => decide (r.status = some "FAIL"))).length ∧
    (calculate_statistics results).skipped_tests =
      (results.filter (fun r => decide (r.status = some "SKIP"))).length ∧
    (results.length = 0 → (calculate_statistics results).pass_rate = 0) ∧
    (0 < results.length → (calculate_statistics results).pass_rate =
      round2 (((calculate_statistics results).passed_tests : ℚ) / (results.length : ℚ) * 100)) ∧
    (calculate_statistics results).passed_tests + (calculate_statistics results).failed_tests
      + (calculate_statistics results).skipped_tests
      ≤ (calculate_statistics results).total_tests := by
  refine ⟨rfl, List.countP_eq_length_filter _ results, List.countP_eq_length_filter _ results,
    List.countP_eq_length_filter _ results, fun h => ?_, fun h => ?_,
    (statusCounts_partition results).1⟩
  · simp [calculate_statistics, h, round2]
  · simp [calculate_statistics, h]

/-- C9 witness: the statistics of a concrete two-record session, one
passed and one failed. -/
theorem c9_statistics_spec_witness :
    (calculate_statistics [{ name := "a", status := some "PASS", timestamp := none },
        { name := "b", status := some "FAIL", timestamp := none }]).total_tests =
      [({ name := "a", status := some "PASS", timestamp := none } : TestResult),
        { name := "b", status := some "FAIL", timestamp := none }].length ∧
    (calculate_statistics [{ name := "a", status := some "PASS", timestamp := none },
        { name := "b", status := some "FAIL", timestamp := none }]).passed_tests =
      ([({ name := "a", status := some "PASS", timestamp := none } : TestResult),
        { name := "b", status := some "FAIL", timestamp := none }].filter
          (fun r => decide (r.status = some "PASS"))).length ∧
    (calculate_statistics [{ name := "a", status := some "PASS", timestamp := none },
        { name := "b", status := some "FAIL", timestamp := none }]).failed_tests =
      ([({ name := "a", status := some "PASS", timestamp := none } : TestResult),
        { name := "b", status := some "FAIL", timestamp := none }].filter
          (fun r => decide (r.status = some "FAIL"))).length ∧
    (calculate_statistics [{ name := "a", status := some "PASS", timestamp := none },
        { name := "b", status := some "FAIL", timestamp := none }]).skipped_tests =
      ([({ name := "a", status := some "PASS", timestamp := none } : TestResult),
        { name := "b", status := some "FAIL", timestamp := none }].filter
          (fun r => decide (r.status = some "SKIP"))).length ∧
    ([({ name := "a", status := some "PASS", timestamp := none } : TestResult),
        { name := "b", status := some "FAIL", timestamp := none }].length = 0 →
      (calculate_statistics [{ name := "a", status := some "PASS", timestamp := none },
        { name := "b", status := some "FAIL", timestamp := none }]).pass_rate = 0) ∧
    (0 < [({ name := "a", status := some "PASS", timestamp := none } : TestResult),
        { name := "b", status := some "FAIL", timestamp := none }].length →
      (calculate_statistics [{ name := "a", status := some "PASS", timestamp := none },
          { name := "b", status := some "FAIL", timestamp := none }]).pass_rate =
        round2 (((calculate_statistics [{ name := "a", status := some "PASS", timestamp := none },
          { name := "b", status := some "FAIL", timestamp := none }]).passed_tests : ℚ) /
          (([({ name := "a", status := some "PASS", timestamp := none } : TestResult),
            { name := "b", status := some "FAIL", timestamp := none }].length : Nat) : ℚ) * 100)) ∧
    (calculate_statistics [{ name := "a", status := some "PASS", timestamp := none },
        { name := "b", status := some "FAIL", timestamp := none }]).passed_tests
      + (calculate_statistics [{ name := "a", status := some "PASS", timestamp := none },
        { name := "b", status := some "FAIL", timestamp := none }]).failed_tests
      + (calculate_statistics [{ name := "a", status := some "PASS", timestamp := none },
        { name := "b", status := some "FAIL", timestamp := none }]).skipped_tests
      ≤ (calculate_statistics [{ name := "a", status := some "PASS", timestamp := none },
        { name := "b", status := some "FAIL", timestamp := none }]).total_tests :=
  c9_statistics_spec [{ name := "a", status := some "PASS", timestamp := none },
    { name := "b", status := some "FAIL", timestamp := none }]

/-- C10: `filter_data` returns exactly the records in which every filter
key is present with an equal value, as a subsequence of the input (order
preserved), and with an empty filter mapping it returns the input
unchanged. -/
theorem c10_filter_data_spec (data : List Record) (filters : List (String × String)) :
    (∀ r, r ∈ filter_data data filters ↔
      r ∈ data ∧ ∀ kv ∈ filters, recordLookup r kv.1 = some kv.2) ∧
    List.Sublist (filter_data data filters) data ∧
    filter_data data [] = data := by
  refine ⟨fun r => ?_, List.filter_sublist data, ?_⟩
  · simp [filter_data, List.mem_filter, matchesFilters, List.all_eq_true]
  · simp [filter_data, matchesFilters]
